import Mathlib

/-!
Shallow embedding of the `cmd/chat` resilience/streaming layer of the eino
chat demo (generate.go, stream.go, model.go, and the conversation assembler
known through template_test.go), together with theorems checking the
natural-language specification against it.

Modelling conventions:
* Go `error` values are terms of the inductive `GoError`; a nil error is
  `Option.none` where the source can see nil.  `fmt.Errorf("...: %w", err)`
  is `GoError.wrapped prefixMsg err`; `errors.New s` is `GoError.simple s`;
  a value implementing `net.Error` (such as the test suite's `fakeNetError`)
  is `GoError.netError msg timeout temporary`.
* `errors.As(err, &netErr)` for the `net.Error` target is `asNetError`:
  it walks the unwrap chain to the first network-layer error.
* `errors.Is(err, target)` is `errorsIs`: Go compares error values by
  identity; distinct error values are modelled as distinct terms.
* Durations are natural numbers of time units (the source's `time.Second`
  is 1 unit); `float32` temperatures are rationals.
* The underlying model's `Generate` is a function from the 0-based call
  index to its result, so a mock that fails once and then succeeds is the
  function sending 0 to an error and everything else to a message.
* `context` cancellation is modelled by `RetryCtx`: `cancelledDuringWait i`
  tells whether `ctx.Done()` wins the `select` raced during the wait that
  follows attempt `i`, and `ctxErr` is the value of `ctx.Err()` then.
-/

/-- Role of a chat message (schema.RoleType). -/
inductive RoleType where
  | system
  | user
  | assistant
  | tool
deriving DecidableEq, Repr

/-- A chat message (schema.Message): role plus textual content. -/
structure SchemaMessage where
  role : RoleType
  content : String
deriving DecidableEq, Repr

/-- Go error values as seen by this layer (see module docstring). -/
inductive GoError where
  | simple (msg : String)
  | netError (msg : String) (timeout : Bool) (temporary : Bool)
  | wrapped (prefixMsg : String) (inner : GoError)
deriving DecidableEq, Repr

/-- errors.As(err, &netErr) with a net.Error target: the first error in the
unwrap chain that is a network-layer error, with its message, Timeout() and
Temporary() flags. `fmt.Errorf("...: %w", e)` wrappers are not themselves
net.Errors, so the chain is unwrapped through them. -/
def asNetError : GoError → Option (String × Bool × Bool)
  | .netError m t p => some (m, t, p)
  | .wrapped _ inner => asNetError inner
  | .simple _ => none

/-- errors.Is(err, target): err itself or anything it wraps equals target. -/
def errorsIs : GoError → GoError → Bool
  | e@(.wrapped _ inner), target => e == target || errorsIs inner target
  | e, target => e == target

/-- isRetryableError (generate.go): nil is not retryable; otherwise the error
is retryable iff errors.As finds a net.Error in its chain and that error's
Timeout() or Temporary() flag is set. -/
def isRetryableError : Option GoError → Bool
  | none => false
  | some err =>
    match asNetError err with
    | some (_, t, p) => t || p
    | none => false

/-- generateWithRetry's fixed retry budget (generate.go: const maxRetries = 3). -/
def maxRetries : Nat := 3

/-- Context as observed by generateWithRetry's select: whether cancellation
wins the race during the wait following attempt `i`, and the value of
ctx.Err() at that moment. -/
structure RetryCtx where
  cancelledDuringWait : Nat → Bool
  ctxErr : GoError

/-- Observable outcome of a generateWithRetry run: the returned value or
error, how many times the underlying Generate was called, and the list of
inter-attempt delays that were waited to completion (in time units). -/
structure RetryResult where
  result : Except GoError SchemaMessage
  calls : Nat
  waits : List Nat
deriving Repr

/-- The attempt loop of generateWithRetry (generate.go).  `attempt` is the
0-based attempt index; `fuel` is the number of loop iterations still allowed
(`maxRetries - attempt`), making the recursion structural; `calls` and
`waits` accumulate the observables.  Falling off the loop produces the
defensive `errors.New("generateWithRetry: unexpected error")`. -/
def generateWithRetryLoop (ctx : RetryCtx) (baseDelay : Nat)
    (gen : Nat → Except GoError SchemaMessage) :
    Nat → Nat → Nat → List Nat → RetryResult
  | _, 0, calls, waits =>
    ⟨.error (.simple "generateWithRetry: unexpected error"), calls, waits⟩
  | attempt, fuel + 1, calls, waits =>
    match gen attempt with
    | .ok out => ⟨.ok out, calls + 1, waits⟩
    | .error err =>
      if isRetryableError (some err) && decide (attempt < maxRetries - 1) then
        if ctx.cancelledDuringWait attempt then
          ⟨.error (.wrapped "generate retry canceled" ctx.ctxErr), calls + 1, waits⟩
        else
          generateWithRetryLoop ctx baseDelay gen (attempt + 1) fuel (calls + 1)
            (waits ++ [baseDelay * (attempt + 1)])
      else
        ⟨.error (.wrapped (s!"after {attempt + 1} retries") err), calls + 1, waits⟩

/-- generateWithRetry (generate.go): run the attempt loop from attempt 0 with
the full budget.  `baseDelay` is the process-wide retryBaseDelay. -/
def generateWithRetry (ctx : RetryCtx) (baseDelay : Nat)
    (gen : Nat → Except GoError SchemaMessage) : RetryResult :=
  generateWithRetryLoop ctx baseDelay gen 0 maxRetries 0 []

/-- The loop makes at most `fuel` further calls beyond those accumulated. -/
theorem generateWithRetryLoop_calls_le (ctx : RetryCtx) (baseDelay : Nat)
    (gen : Nat → Except GoError SchemaMessage) :
    ∀ fuel attempt calls waits,
      (generateWithRetryLoop ctx baseDelay gen attempt fuel calls waits).calls
        ≤ calls + fuel := by
  intro fuel
  induction fuel with
  | zero => intro attempt calls waits; simp [generateWithRetryLoop]
  | succ n ih =>
    intro attempt calls waits
    simp only [generateWithRetryLoop]
    cases gen attempt with
    | ok out => show calls + 1 ≤ calls + (n + 1); omega
    | error err =>
      by_cases hretry : (isRetryableError (some err) && decide (attempt < maxRetries - 1)) = true
      · simp only [hretry, if_true]
        by_cases hc : ctx.cancelledDuringWait attempt = true
        · simp only [hc, if_true]
          show calls + 1 ≤ calls + (n + 1); omega
        · simp only [Bool.not_eq_true] at hc
          simp only [hc, Bool.false_eq_true, if_false]
          calc (generateWithRetryLoop ctx baseDelay gen (attempt + 1) n (calls + 1)
                  (waits ++ [baseDelay * (attempt + 1)])).calls
              ≤ calls + 1 + n := ih (attempt + 1) (calls + 1) _
            _ ≤ calls + (n + 1) := by omega
      · simp only [Bool.not_eq_true] at hretry
        simp only [hretry, Bool.false_eq_true, if_false]
        show calls + 1 ≤ calls + (n + 1); omega

/-- errors.Is of an error against itself always succeeds. -/
theorem errorsIs_self (e : GoError) : errorsIs e e = true := by
  cases e <;> simp [errorsIs]

/-- Concrete fixtures mirroring the repository's test suite
(generate_test.go): a mock context that never observes cancellation. -/
def neverCancelCtx : RetryCtx := ⟨fun _ => false, .simple "context canceled"⟩

/-- A mock context in which cancellation wins every inter-attempt wait. -/
def alwaysCancelCtx : RetryCtx := ⟨fun _ => true, .simple "context canceled"⟩

/-- The mock reply message. -/
def msgHello : SchemaMessage := ⟨.assistant, "hello"⟩

/-- fakeNetError{msg: "temporary", temporary: true}: retryable. -/
def tempNetErr : GoError := .netError "temporary" false true

/-- errors.New("fatal"): a generic non-retryable error. -/
def fatalErr : GoError := .simple "fatal"

/-- A mock Generate failing once with a retryable error, then succeeding. -/
def genFailOnceThenOk : Nat → Except GoError SchemaMessage :=
  fun i => if i = 0 then .error tempNetErr else .ok msgHello

/-- A mock Generate always failing with a non-retryable error. -/
def genAlwaysFatal : Nat → Except GoError SchemaMessage :=
  fun _ => .error fatalErr

/-- A mock Generate always failing with a retryable network error. -/
def genAlwaysTempErr : Nat → Except GoError SchemaMessage :=
  fun _ => .error tempNetErr

/-- C1: generateWithRetry makes at most maxRetries (3) calls to the
underlying Generate, and when the first call fails with a retryable error
(with no cancellation during the wait) and the second call succeeds, it
returns the second call's message with no error after exactly 2 calls. -/
theorem generateWithRetry_bounded_and_recovers (ctx : RetryCtx) (baseDelay : Nat)
    (gen : Nat → Except GoError SchemaMessage) (e : GoError) (m : SchemaMessage)
    (h0 : gen 0 = .error e) (hr : isRetryableError (some e) = true)
    (hc : ctx.cancelledDuringWait 0 = false) (h1 : gen 1 = .ok m) :
    (generateWithRetry ctx baseDelay gen).calls ≤ maxRetries
    ∧ (generateWithRetry ctx baseDelay gen).result = .ok m
    ∧ (generateWithRetry ctx baseDelay gen).calls = 2 := by
  refine ⟨?_, ?_, ?_⟩
  · have h := generateWithRetryLoop_calls_le ctx baseDelay gen maxRetries 0 0 []
    simpa [generateWithRetry] using h
  · simp [generateWithRetry, generateWithRetryLoop, maxRetries, h0, hr, hc, h1]
  · simp [generateWithRetry, generateWithRetryLoop, maxRetries, h0, hr, hc, h1]

/-- C1 witness: the mock failing once with a temporary network error and then
succeeding is called exactly twice and its message is returned. -/
theorem generateWithRetry_bounded_and_recovers_witness :
    (generateWithRetry neverCancelCtx 1 genFailOnceThenOk).result = .ok msgHello
    ∧ (generateWithRetry neverCancelCtx 1 genFailOnceThenOk).calls = 2 :=
  ⟨(generateWithRetry_bounded_and_recovers neverCancelCtx 1 genFailOnceThenOk
      tempNetErr msgHello rfl rfl rfl rfl).2.1,
   (generateWithRetry_bounded_and_recovers neverCancelCtx 1 genFailOnceThenOk
      tempNetErr msgHello rfl rfl rfl rfl).2.2⟩

/-- C2: isRetryableError returns true exactly when errors.As finds a
network-layer error in the chain whose Timeout() or Temporary() flag is set;
in particular a network error with temporary=true, timeout=false is
retryable, one with neither flag is not, and a generic error is not. -/
theorem isRetryableError_classification :
    (∀ e : GoError, isRetryableError (some e) = true ↔
      ∃ m t p, asNetError e = some (m, t, p) ∧ (t || p) = true)
    ∧ isRetryableError (some (.netError "net" false true)) = true
    ∧ isRetryableError (some (.netError "net" false false)) = false
    ∧ isRetryableError (some (.simple "opaque")) = false := by
  refine ⟨?_, by decide, by decide, by decide⟩
  intro e
  have hrw : isRetryableError (some e)
      = (match asNetError e with
         | some (_, t, p) => t || p
         | none => false) := rfl
  constructor
  · intro h
    rw [hrw] at h
    cases hne : asNetError e with
    | none => simp [hne] at h
    | some v =>
      obtain ⟨m, t, p⟩ := v
      refine ⟨m, t, p, rfl, ?_⟩
      simpa [hne] using h
  · rintro ⟨m, t, p, hne, htp⟩
    rw [hrw]
    simp [hne, htp]

/-- C3: on a non-retryable first error, generateWithRetry makes exactly one
call and returns the error wrapped with the attempt count ("after 1
retries"), and errors.Is against the original error succeeds. -/
theorem generateWithRetry_nonretryable (ctx : RetryCtx) (baseDelay : Nat)
    (gen : Nat → Except GoError SchemaMessage) (e : GoError)
    (h0 : gen 0 = .error e) (hr : isRetryableError (some e) = false) :
    (generateWithRetry ctx baseDelay gen).calls = 1
    ∧ (generateWithRetry ctx baseDelay gen).result
        = .error (.wrapped "after 1 retries" e)
    ∧ errorsIs (.wrapped "after 1 retries" e) e = true := by
  refine ⟨?_, ?_, ?_⟩
  · simp [generateWithRetry, generateWithRetryLoop, maxRetries, h0, hr]
  · simp only [generateWithRetry, generateWithRetryLoop, maxRetries, h0, hr]
    simp [h0, hr]
    rfl
  · simp [errorsIs, errorsIs_self]

/-- C3 witness: the always-fatal mock is called once and the returned error
wraps the original fatal error. -/
theorem generateWithRetry_nonretryable_witness :
    (generateWithRetry neverCancelCtx 1 genAlwaysFatal).calls = 1
    ∧ (generateWithRetry neverCancelCtx 1 genAlwaysFatal).result
        = .error (.wrapped "after 1 retries" fatalErr)
    ∧ errorsIs (.wrapped "after 1 retries" fatalErr) fatalErr = true :=
  generateWithRetry_nonretryable neverCancelCtx 1 genAlwaysFatal fatalErr rfl rfl

/-- C4: when cancellation wins the wait that follows a failed retryable
attempt k (all earlier attempts also failing retryable with their waits
uncancelled), generateWithRetry returns an error wrapping ctx.Err() — an
error unrelated to the generation error whenever ctx.Err() is — and at
least one call to the underlying Generate has been made. -/
theorem generateWithRetry_cancelled (ctx : RetryCtx) (baseDelay : Nat)
    (gen : Nat → Except GoError SchemaMessage) (k : Nat)
    (hk : k < maxRetries - 1)
    (hfail : ∀ i, i ≤ k → ∃ e, gen i = .error e ∧ isRetryableError (some e) = true)
    (hnc : ∀ i, i < k → ctx.cancelledDuringWait i = false)
    (hc : ctx.cancelledDuringWait k = true) :
    (generateWithRetry ctx baseDelay gen).result
      = .error (.wrapped "generate retry canceled" ctx.ctxErr)
    ∧ 1 ≤ (generateWithRetry ctx baseDelay gen).calls
    ∧ errorsIs (.wrapped "generate retry canceled" ctx.ctxErr) ctx.ctxErr = true
    ∧ (∀ egen : GoError, errorsIs ctx.ctxErr egen = false →
        GoError.wrapped "generate retry canceled" ctx.ctxErr ≠ egen →
        errorsIs (.wrapped "generate retry canceled" ctx.ctxErr) egen = false) := by
  have hdistinct : ∀ egen : GoError, errorsIs ctx.ctxErr egen = false →
      GoError.wrapped "generate retry canceled" ctx.ctxErr ≠ egen →
      errorsIs (.wrapped "generate retry canceled" ctx.ctxErr) egen = false := by
    intro egen hne hneq
    simp [errorsIs, hne, hneq]
  have hself : errorsIs (.wrapped "generate retry canceled" ctx.ctxErr) ctx.ctxErr
      = true := by
    simp [errorsIs, errorsIs_self]
  have hk' : k = 0 ∨ k = 1 := by simp [maxRetries] at hk; omega
  rcases hk' with rfl | rfl
  · obtain ⟨e0, he0, hr0⟩ := hfail 0 (Nat.le_refl 0)
    refine ⟨?_, ?_, hself, hdistinct⟩ <;>
      simp [generateWithRetry, generateWithRetryLoop, maxRetries, he0, hr0, hc]
  · obtain ⟨e0, he0, hr0⟩ := hfail 0 (by omega)
    obtain ⟨e1, he1, hr1⟩ := hfail 1 (Nat.le_refl 1)
    have hnc0 : ctx.cancelledDuringWait 0 = false := hnc 0 (by omega)
    refine ⟨?_, ?_, hself, hdistinct⟩ <;>
      simp [generateWithRetry, generateWithRetryLoop, maxRetries,
        he0, hr0, hnc0, he1, hr1, hc]

/-- C4 witness: with cancellation winning the first wait and the mock always
failing with a timeout network error, the run returns the cancellation
wrapper and has made at least one call. -/
theorem generateWithRetry_cancelled_witness :
    (generateWithRetry alwaysCancelCtx 1 genAlwaysTempErr).result
      = .error (.wrapped "generate retry canceled" alwaysCancelCtx.ctxErr)
    ∧ 1 ≤ (generateWithRetry alwaysCancelCtx 1 genAlwaysTempErr).calls :=
  ⟨(generateWithRetry_cancelled alwaysCancelCtx 1 genAlwaysTempErr 0 (by decide)
      (fun i _ => ⟨tempNetErr, rfl, rfl⟩) (fun i hi => absurd hi (Nat.not_lt_zero i))
      rfl).1,
   (generateWithRetry_cancelled alwaysCancelCtx 1 genAlwaysTempErr 0 (by decide)
      (fun i _ => ⟨tempNetErr, rfl, rfl⟩) (fun i hi => absurd hi (Nat.not_lt_zero i))
      rfl).2.1⟩

/-- C5: when the first two attempts fail with retryable errors and no wait is
cancelled, the delays waited are baseDelay*1 then baseDelay*2 — the linear
formula baseDelay * (attempt_index + 1). -/
theorem generateWithRetry_linear_backoff (ctx : RetryCtx) (baseDelay : Nat)
    (gen : Nat → Except GoError SchemaMessage) (e0 e1 : GoError)
    (h0 : gen 0 = .error e0) (hr0 : isRetryableError (some e0) = true)
    (h1 : gen 1 = .error e1) (hr1 : isRetryableError (some e1) = true)
    (hc0 : ctx.cancelledDuringWait 0 = false)
    (hc1 : ctx.cancelledDuringWait 1 = false) :
    (generateWithRetry ctx baseDelay gen).waits
      = [baseDelay * 1, baseDelay * 2] := by
  cases h2 : gen 2 with
  | ok m =>
    simp [generateWithRetry, generateWithRetryLoop, maxRetries,
      h0, hr0, hc0, h1, hr1, hc1, h2]
  | error e2 =>
    simp [generateWithRetry, generateWithRetryLoop, maxRetries,
      h0, hr0, hc0, h1, hr1, hc1, h2]

/-- C5 witness: with base delay 5 and the always-retryable mock, the waits
are 5 and 10. -/
theorem generateWithRetry_linear_backoff_witness :
    (generateWithRetry neverCancelCtx 5 genAlwaysTempErr).waits = [5 * 1, 5 * 2] :=
  generateWithRetry_linear_backoff neverCancelCtx 5 genAlwaysTempErr
    tempNetErr tempNetErr rfl rfl rfl rfl rfl rfl

/-- One chunk of a streamed response (schema.Message as received by Recv);
only its Content is consumed by the drain loop. -/
structure StreamChunk where
  content : String
deriving DecidableEq, Repr

/-- One result of sr.Recv() in stream.go's drain loop: a chunk pointer
(none is a nil chunk), the io.EOF sentinel, or a non-EOF receive error. -/
inductive RecvEvent where
  | item (chunk : Option StreamChunk)
  | eof
  | fail (e : GoError)
deriving DecidableEq, Repr

/-- The drain loop of reportStreamWithContext (stream.go), without
cancellation in flight: successive Recv results are the `events` list, the
writer is `write` (the error, if any, that the i-th Fprint returns), and
`acc` accumulates the payloads forwarded so far.  Returns the forwarded
payloads and the returned error (none on clean EOF).  The concurrent
cancellation watcher goroutine only closes the reader on ctx.Done(), which
in an uncancelled run has no effect on the loop, so it does not appear;
a well-formed uncancelled stream always ends in `eof` or `fail`, and the
exhausted-list case is an unreachable modelling default. -/
def reportStreamLoop (write : Nat → Option GoError) :
    List RecvEvent → List String → List String × Option GoError
  | [], acc => (acc, some (.simple "stream exhausted"))
  | .eof :: _, acc => (acc, none)
  | .fail e :: _, acc => (acc, some (.wrapped "stream error" e))
  | .item chunk :: rest, acc =>
    match chunk with
    | none => reportStreamLoop write rest acc
    | some c =>
      if c.content = "" then reportStreamLoop write rest acc
      else
        match write acc.length with
        | some we => (acc, some (.wrapped "write error" we))
        | none => reportStreamLoop write rest (acc ++ [c.content])

/-- reportStreamWithContext (stream.go): drain from an empty accumulator. -/
def reportStreamWithContext (write : Nat → Option GoError)
    (events : List RecvEvent) : List String × Option GoError :=
  reportStreamLoop write events []

/-- The non-empty payloads carried by a chunk-pointer list, in order: nil
chunks and chunks with empty content contribute nothing. -/
def nonEmptyContents (chunks : List (Option StreamChunk)) : List String :=
  chunks.filterMap fun chunk =>
    match chunk with
    | none => none
    | some c => if c.content = "" then none else some c.content

/-- Auxiliary: draining chunk items followed by EOF with a never-failing
writer appends exactly the non-empty contents and succeeds. -/
theorem reportStreamLoop_items_eof (write : Nat → Option GoError)
    (hw : ∀ i, write i = none) :
    ∀ (chunks : List (Option StreamChunk)) (rest : List RecvEvent)
      (acc : List String),
      reportStreamLoop write (chunks.map RecvEvent.item ++ RecvEvent.eof :: rest) acc
        = (acc ++ nonEmptyContents chunks, none) := by
  intro chunks
  induction chunks with
  | nil => intro rest acc; simp [reportStreamLoop, nonEmptyContents]
  | cons chunk tail ih =>
    intro rest acc
    cases chunk with
    | none => simp [reportStreamLoop, nonEmptyContents, ih]
    | some c =>
      by_cases hcemp : c.content = ""
      · simp [reportStreamLoop, nonEmptyContents, hcemp, ih]
      · simp [reportStreamLoop, nonEmptyContents, hcemp, hw, ih]

/-- C6: draining a stream that yields some chunks and then io.EOF forwards
exactly the non-empty chunk contents, in order, and returns no error; nil
and empty chunks are skipped without terminating the loop. -/
theorem reportStreamWithContext_drains (write : Nat → Option GoError)
    (chunks : List (Option StreamChunk)) (rest : List RecvEvent)
    (hw : ∀ i, write i = none) :
    reportStreamWithContext write (chunks.map RecvEvent.item ++ RecvEvent.eof :: rest)
      = (nonEmptyContents chunks, none) := by
  have h := reportStreamLoop_items_eof write hw chunks rest []
  simpa [reportStreamWithContext] using h

/-- C6 witness: three non-empty chunks interleaved with a nil chunk and an
empty chunk, then EOF, forward exactly the three payloads and succeed. -/
theorem reportStreamWithContext_drains_witness :
    reportStreamWithContext (fun _ => none)
      ([some ⟨"a"⟩, none, some ⟨""⟩, some ⟨"b"⟩, some ⟨"c"⟩].map RecvEvent.item
        ++ RecvEvent.eof :: [])
      = (["a", "b", "c"], none) := by
  have h := reportStreamWithContext_drains (fun _ => none)
    [some ⟨"a"⟩, none, some ⟨""⟩, some ⟨"b"⟩, some ⟨"c"⟩] [] (fun _ => rfl)
  simpa [nonEmptyContents] using h

/-- ModelConfig (model.go): the validated client configuration.  Durations
are time units (time.Second = 1), the float32 temperature is a rational,
MaxRetries is a Go int. -/
structure ModelConfig where
  apiKey : String
  model : String
  baseURL : String
  temperature : Option ℚ
  timeout : Nat
  maxRetries : Int
deriving DecidableEq, Repr

/-- Decidable equality on Except results, for evaluating runs of the
config loader on concrete environments. -/
instance {α β : Type} [DecidableEq α] [DecidableEq β] :
    DecidableEq (Except α β) := fun a b =>
  match a, b with
  | .ok x, .ok y =>
    if h : x = y then .isTrue (by rw [h]) else .isFalse (by simp [h])
  | .error x, .error y =>
    if h : x = y then .isTrue (by rw [h]) else .isFalse (by simp [h])
  | .ok _, .error _ => .isFalse (by simp)
  | .error _, .ok _ => .isFalse (by simp)

/-- DefaultModelConfig (model.go): temperature 0.7 (the source comment calls
it 默认创造性温度, the default *creative* temperature), Timeout
30*time.Second, MaxRetries 3.  Unset string fields are Go's zero value. -/
def DefaultModelConfig : ModelConfig :=
  { apiKey := ""
    model := ""
    baseURL := ""
    temperature := some (7 / 10)
    timeout := 30
    maxRetries := 3 }

/-- Decimal digits to a number, left to right; none on a non-digit. -/
def digitsToNatGo : List Char → Nat → Option Nat
  | [], acc => some acc
  | c :: cs, acc =>
    if c.isDigit then digitsToNatGo cs (acc * 10 + (c.toNat - '0'.toNat))
    else none

/-- A non-empty all-digit character list to its number, else none. -/
def digitsToNat : List Char → Option Nat
  | [] => none
  | ds => digitsToNatGo ds 0

/-- A decimal integer with optional sign, on the character list so that it
evaluates inside the kernel. -/
def scanDecimalInt (s : String) : Option Int :=
  match s.data with
  | '-' :: ds => (digitsToNat ds).map (fun n => -(n : Int))
  | '+' :: ds => (digitsToNat ds).map (fun n => (n : Int))
  | ds => (digitsToNat ds).map (fun n => (n : Int))

/-- Shallow model of fmt.Sscanf(s, "%d", &target): yields (number of items
scanned, error, value stored into the target).  On success one item is
scanned with no error; on failure nothing is scanned, an error is returned
and the target keeps its previous value. -/
def goSscanfInt (s : String) : Nat × Option GoError × Option Int :=
  match scanDecimalInt s with
  | some v => (1, none, some v)
  | none => (0, some (.simple "expected integer"), none)

/-- The OPENAI_TEMPERATURE branch of LoadModelConfig (model.go): an absent
key keeps the default; an unparsable value (fmt.Sscanf %f failing, modelled
by parseFloat returning none) is a configuration error; otherwise the
parsed value overrides the default. -/
def applyTemperature (parseFloat : String → Option ℚ) (s : String)
    (config : ModelConfig) : Except GoError ModelConfig :=
  if s = "" then .ok config
  else
    match parseFloat s with
    | some t => .ok { config with temperature := some t }
    | none => .error (.wrapped "invalid OPENAI_TEMPERATURE value"
        (.simple "parse error"))

/-- The OPENAI_TIMEOUT branch of LoadModelConfig (model.go), with
time.ParseDuration modelled by parseDuration. -/
def applyTimeout (parseDuration : String → Option Nat) (s : String)
    (config : ModelConfig) : Except GoError ModelConfig :=
  if s = "" then .ok config
  else
    match parseDuration s with
    | some d => .ok { config with timeout := d }
    | none => .error (.wrapped "invalid OPENAI_TIMEOUT value"
        (.simple "parse error"))

/-- The OPENAI_MAX_RETRIES branch of LoadModelConfig (model.go).  The source
scans with `maxRetries, err := fmt.Sscanf(maxRetriesStr, "%d",
&config.MaxRetries)`, so `maxRetries` is the scanned-ITEM COUNT, and its
guard `err != nil || maxRetries < 0` tests that count — which is never
negative — rather than the parsed value: any string that scans as an
integer, including a negative one, is accepted. -/
def applyMaxRetries (s : String) (config : ModelConfig) :
    Except GoError ModelConfig :=
  if s = "" then .ok config
  else
    let scanned := goSscanfInt s
    let config := match scanned.2.2 with
      | some v => { config with maxRetries := v }
      | none => config
    if scanned.2.1.isSome || (scanned.1 : Int) < 0 then
      .error (.wrapped "invalid OPENAI_MAX_RETRIES value"
        (scanned.2.1.getD (.simple "nil")))
    else .ok config

/-- LoadModelConfig (model.go): start from DefaultModelConfig, require
OPENAI_API_KEY and OPENAI_MODEL_NAME to be non-empty, then apply the
optional overrides in source order.  getenv models os.Getenv (absent keys
give ""); parseFloat and parseDuration model the stdlib parsers the source
delegates to. -/
def LoadModelConfig (parseFloat : String → Option ℚ)
    (parseDuration : String → Option Nat)
    (getenv : String → String) : Except GoError ModelConfig :=
  if getenv "OPENAI_API_KEY" = "" then
    .error (.simple "OPENAI_API_KEY environment variable is required")
  else if getenv "OPENAI_MODEL_NAME" = "" then
    .error (.simple "OPENAI_MODEL_NAME environment variable is required")
  else
    let config := { DefaultModelConfig with
      apiKey := getenv "OPENAI_API_KEY"
      model := getenv "OPENAI_MODEL_NAME" }
    let config := if getenv "OPENAI_BASE_URL" ≠ "" then
        { config with baseURL := getenv "OPENAI_BASE_URL" }
      else config
    match applyTemperature parseFloat (getenv "OPENAI_TEMPERATURE") config with
    | .error e => .error e
    | .ok config =>
      match applyTimeout parseDuration (getenv "OPENAI_TIMEOUT") config with
      | .error e => .error e
      | .ok config => applyMaxRetries (getenv "OPENAI_MAX_RETRIES") config

/-- A constructed OpenAI chat model client (the value openai.NewChatModel
returns on success); its internals are irrelevant to this layer. -/
structure OpenAIClient where
  id : Nat
deriving DecidableEq, Repr

/-- How a createOpenAIChatModelWithConfig run ends: a client, log.Fatalf
(which halts the process), or the trailing panic("unreachable"). -/
inductive FactoryOutcome where
  | ok (c : OpenAIClient)
  | fatal (msg : String)
  | panicked (msg : String)
deriving DecidableEq, Repr

/-- Observables of a factory run: how it ended, how many construction
attempts were made, and the total time units spent in the inter-attempt
time.Sleep calls (construction calls modelled as instantaneous). -/
structure FactoryRun where
  outcome : FactoryOutcome
  attemptsMade : Nat
  elapsed : Nat
deriving DecidableEq, Repr

/-- The attempt loop of createOpenAIChatModelWithConfig (model.go).
`newChatModel attempt expired` models openai.NewChatModel called with
ctxWithTimeout, where `expired` says whether the timeout deadline has
already passed at that call.  The loop itself never consults the deadline:
its time.Sleep waits are plain sleeps (not the cancellable select of
generateWithRetry) and iteration is governed solely by `attempt <=
config.MaxRetries`.  `fuel` makes that Go condition structural; exhausting
it is the source's trailing panic("unreachable"). -/
def factoryLoop (maxRetriesCfg : Int) (timeout : Nat)
    (newChatModel : Nat → Bool → Except GoError OpenAIClient) :
    Nat → Nat → Nat → FactoryRun
  | attempt, elapsed, 0 => ⟨.panicked "unreachable", attempt, elapsed⟩
  | attempt, elapsed, fuel + 1 =>
    match newChatModel attempt (decide (timeout ≤ elapsed)) with
    | .ok c => ⟨.ok c, attempt + 1, elapsed⟩
    | .error _ =>
      if (attempt : Int) = maxRetriesCfg then
        ⟨.fatal (s!"failed to create openai chat model after {maxRetriesCfg + 1} attempts"),
          attempt + 1, elapsed⟩
      else
        factoryLoop maxRetriesCfg timeout newChatModel
          (attempt + 1) (elapsed + (attempt + 1)) fuel

/-- createOpenAIChatModelWithConfig (model.go) for an explicitly supplied
config: run the attempt loop from attempt 0; the Go loop executes
(config.MaxRetries + 1) iterations when MaxRetries >= 0 and none at all
when it is negative. -/
def createOpenAIChatModelWithConfig (config : ModelConfig)
    (newChatModel : Nat → Bool → Except GoError OpenAIClient) : FactoryRun :=
  factoryLoop config.maxRetries config.timeout newChatModel 0 0
    (config.maxRetries + 1).toNat

/-- The spec's characterization of the default sampling temperature, "a
conservative non-creative default", read as a predicate on the value: a
conservative, non-creative (deterministic-leaning) sampling temperature is
at most 1/2; values of 0.7 and above are the creative range — where the
source's own comment (默认创造性温度, "default creative temperature")
places its default. -/
def conservativeNonCreativeTemperature (t : ℚ) : Prop := t ≤ 1 / 2

/-- C7 counterexample: the default temperature the code applies is 0.7,
which is not a conservative non-creative value (and the source comment
itself labels it creative). -/
theorem defaultTemperature_not_conservative :
    DefaultModelConfig.temperature = some (7 / 10)
    ∧ ¬ conservativeNonCreativeTemperature (7 / 10) := by
  constructor
  · rfl
  · norm_num [conservativeNonCreativeTemperature]

/-- C7 (amended): with the required keys present and every optional override
absent, the loaded configuration keeps the defaults: temperature 0.7 (a
creative default, per the source's own comment), timeout 30 time units, and
3 construction retries. -/
theorem loadModelConfig_defaults (parseFloat : String → Option ℚ)
    (parseDuration : String → Option Nat) (getenv : String → String)
    (hkey : getenv "OPENAI_API_KEY" ≠ "")
    (hmodel : getenv "OPENAI_MODEL_NAME" ≠ "")
    (htemp : getenv "OPENAI_TEMPERATURE" = "")
    (htimeout : getenv "OPENAI_TIMEOUT" = "")
    (hretries : getenv "OPENAI_MAX_RETRIES" = "") :
    ∃ config : ModelConfig,
      LoadModelConfig parseFloat parseDuration getenv = .ok config
      ∧ config.temperature = some (7 / 10)
      ∧ config.timeout = 30
      ∧ config.maxRetries = 3 := by
  by_cases hurl : getenv "OPENAI_BASE_URL" = ""
  · refine ⟨{ DefaultModelConfig with apiKey := getenv "OPENAI_API_KEY", model := getenv "OPENAI_MODEL_NAME" }, ?_, rfl, rfl, rfl⟩
    simp [LoadModelConfig, applyTemperature, applyTimeout, applyMaxRetries,
      hkey, hmodel, htemp, htimeout, hretries, hurl]
  · refine ⟨{ DefaultModelConfig with apiKey := getenv "OPENAI_API_KEY", model := getenv "OPENAI_MODEL_NAME", baseURL := getenv "OPENAI_BASE_URL" }, ?_, rfl, rfl, rfl⟩
    simp [LoadModelConfig, applyTemperature, applyTimeout, applyMaxRetries,
      hkey, hmodel, htemp, htimeout, hretries, hurl]

/-- An environment carrying only the two required keys. -/
def envRequiredOnly : String → String := fun key =>
  if key = "OPENAI_API_KEY" then "sk-test"
  else if key = "OPENAI_MODEL_NAME" then "gpt-test"
  else ""

/-- C7 witness: loading from an environment with only the required keys
yields the default temperature, timeout and retry count. -/
theorem loadModelConfig_defaults_witness :
    ∃ config : ModelConfig,
      LoadModelConfig (fun _ => none) (fun _ => none) envRequiredOnly = .ok config
      ∧ config.temperature = some (7 / 10)
      ∧ config.timeout = 30
      ∧ config.maxRetries = 3 :=
  loadModelConfig_defaults (fun _ => none) (fun _ => none) envRequiredOnly
    (by decide) (by decide) rfl rfl rfl

/-- A constructor that fails on its first two attempts and then succeeds,
paying no attention to whether the timeout deadline has passed (as a
constructor doing no deadline-aware work does). -/
def ncmFailTwice : Nat → Bool → Except GoError OpenAIClient :=
  fun i _ => if i < 2 then .error (.simple "dial failed") else .ok ⟨1⟩

/-- A config with the default retry budget and a 1-time-unit timeout. -/
def timeoutOneCfg : ModelConfig :=
  { DefaultModelConfig with apiKey := "sk-test", model := "gpt-test", timeout := 1 }

/-- C8 counterexample: with a 1-unit construction timeout and a constructor
failing twice, the timeout elapses during the first inter-attempt sleep —
long before the retry budget (3) is exhausted — yet the factory keeps
sleeping and retrying, and at elapsed time 3 (already past the timeout)
construction still SUCCEEDS: the operation is not cut off when the timeout
elapses, so it is not bounded by the configured timeout. -/
theorem createOpenAI_exceeds_timeout :
    timeoutOneCfg.timeout = 1
    ∧ timeoutOneCfg.maxRetries = 3
    ∧ createOpenAIChatModelWithConfig timeoutOneCfg ncmFailTwice
        = ⟨.ok ⟨1⟩, 3, 3⟩
    ∧ ¬((createOpenAIChatModelWithConfig timeoutOneCfg ncmFailTwice).elapsed
        ≤ timeoutOneCfg.timeout) := by
  refine ⟨rfl, rfl, ?_, ?_⟩ <;> decide

/-- Auxiliary: the factory loop never reads the timeout except to compute
the expired flag handed to the constructor, so for a constructor that
ignores that flag the whole run is independent of the timeout. -/
theorem factoryLoop_timeout_irrelevant (mr : Int)
    (ncm : Nat → Except GoError OpenAIClient) (t1 t2 : Nat) :
    ∀ fuel attempt elapsed,
      factoryLoop mr t1 (fun i _ => ncm i) attempt elapsed fuel
        = factoryLoop mr t2 (fun i _ => ncm i) attempt elapsed fuel := by
  intro fuel
  induction fuel with
  | zero => intro attempt elapsed; rfl
  | succ n ih =>
    intro attempt elapsed
    simp only [factoryLoop]
    cases ncm attempt with
    | ok c => rfl
    | error e =>
      by_cases hlast : (attempt : Int) = mr
      · simp [hlast]
      · simp only [hlast, if_false, ih]

/-- C8 (amended): the factory operation is NOT bounded by the configured
construction timeout — the attempt loop never observes the deadline (its
sleeps are plain time.Sleep, not a cancellable wait), so for any
constructor that does not itself act on the expired deadline the entire
run — outcome, attempt count and elapsed time — is the same whatever the
configured timeout is. -/
theorem createOpenAI_timeout_not_binding
    (ncm : Nat → Except GoError OpenAIClient) (config : ModelConfig)
    (t1 t2 : Nat) :
    createOpenAIChatModelWithConfig { config with timeout := t1 } (fun i _ => ncm i)
      = createOpenAIChatModelWithConfig { config with timeout := t2 } (fun i _ => ncm i) :=
  factoryLoop_timeout_irrelevant config.maxRetries ncm t1 t2
    (config.maxRetries + 1).toNat 0 0

/-- Auxiliary: the loop never reaches the panic when it starts with fuel at
least 1 and fuel exactly covers the remaining Go iterations. -/
theorem factoryLoop_no_panic (mr : Int) (timeout : Nat)
    (ncm : Nat → Bool → Except GoError OpenAIClient) :
    ∀ (fuel attempt elapsed : Nat),
      ((attempt : Int) + (fuel : Int) = mr + 1) → 1 ≤ fuel →
      ∀ msg, (factoryLoop mr timeout ncm attempt elapsed fuel).outcome
        ≠ .panicked msg := by
  intro fuel
  induction fuel with
  | zero => intro attempt elapsed hinv hfuel; omega
  | succ n ih =>
    intro attempt elapsed hinv hfuel msg
    simp only [factoryLoop]
    cases ncm attempt (decide (timeout ≤ elapsed)) with
    | ok c => simp
    | error e =>
      by_cases hlast : (attempt : Int) = mr
      · simp [hlast]
      · simp only [hlast, if_false]
        have hn : 1 ≤ n := by
          rcases Nat.eq_zero_or_pos n with h0 | h1
          · exfalso; apply hlast; omega
          · exact h1
        apply ih
        · push_cast; push_cast at hinv; omega
        · exact hn

/-- An environment that overrides OPENAI_MAX_RETRIES with "-2". -/
def envNegRetries : String → String := fun key =>
  if key = "OPENAI_API_KEY" then "sk-test"
  else if key = "OPENAI_MODEL_NAME" then "gpt-test"
  else if key = "OPENAI_MAX_RETRIES" then "-2"
  else ""

/-- The configuration envNegRetries loads: defaults with MaxRetries -2. -/
def cfgNegRetries : ModelConfig :=
  { DefaultModelConfig with apiKey := "sk-test", model := "gpt-test", maxRetries := -2 }

/-- C10: with MaxRetries >= 0 the trailing panic("unreachable") of
createOpenAIChatModelWithConfig is never reached; and the precondition is
necessary: LoadModelConfig's guard tests fmt.Sscanf's scanned-item count
rather than the parsed value, so the override "-2" is accepted without
error, and with MaxRetries = -2 the attempt loop body never executes and
the panic is reached. -/
theorem createOpenAI_unreachable_guard :
    (∀ (config : ModelConfig) (ncm : Nat → Bool → Except GoError OpenAIClient),
      0 ≤ config.maxRetries →
      ∀ msg, (createOpenAIChatModelWithConfig config ncm).outcome ≠ .panicked msg)
    ∧ LoadModelConfig (fun _ => none) (fun _ => none) envNegRetries
        = .ok cfgNegRetries
    ∧ cfgNegRetries.maxRetries = -2
    ∧ (∀ ncm, (createOpenAIChatModelWithConfig cfgNegRetries ncm).outcome
        = .panicked "unreachable") := by
  refine ⟨?_, rfl, rfl, fun ncm => rfl⟩
  intro config ncm hnonneg msg
  apply factoryLoop_no_panic
  · push_cast; omega
  · omega

/-- C10 witness: the default configuration (MaxRetries 3) never reaches the
panic, whatever the constructor does. -/
theorem createOpenAI_unreachable_guard_witness :
    (createOpenAIChatModelWithConfig DefaultModelConfig
      (fun _ _ => .error (.simple "dial failed"))).outcome
      ≠ .panicked "unreachable" :=
  createOpenAI_unreachable_guard.1 DefaultModelConfig
    (fun _ _ => .error (.simple "dial failed")) (by decide) "unreachable"

/-- Modelled from the spec: the Conversation Assembler
(createMessagesFromTemplate; template.go is not among the provided source
files — only its unit test template_test.go and a documentation extract
are).  Per the spec's Conversation invariant the order is fixed as
system-role guidance, then the prior history (alternating user/assistant
turns), then the current user question; per the documented FString template
(and the test's expected fixture) the question is rendered as the line
"问题: {question}". -/
def createMessagesFromTemplate (persona : String)
    (history : List SchemaMessage) (question : String) : List SchemaMessage :=
  ⟨.system, persona⟩ :: history ++ [⟨.user, "问题: " ++ question⟩]

/-- C9: assembling with a persona, a 2-turn history and a question always
yields exactly 6 messages with roles
[system, user, assistant, user, assistant, user] and contents equal to the
corresponding inputs (the question rendered on its templated line), and
nothing else. -/
theorem createMessagesFromTemplate_order (persona u1 a1 u2 a2 q : String) :
    createMessagesFromTemplate persona
        [⟨.user, u1⟩, ⟨.assistant, a1⟩, ⟨.user, u2⟩, ⟨.assistant, a2⟩] q
      = [⟨.system, persona⟩, ⟨.user, u1⟩, ⟨.assistant, a1⟩, ⟨.user, u2⟩,
          ⟨.assistant, a2⟩, ⟨.user, "问题: " ++ q⟩]
    ∧ (createMessagesFromTemplate persona
        [⟨.user, u1⟩, ⟨.assistant, a1⟩, ⟨.user, u2⟩, ⟨.assistant, a2⟩] q).length = 6
    ∧ (createMessagesFromTemplate persona
        [⟨.user, u1⟩, ⟨.assistant, a1⟩, ⟨.user, u2⟩, ⟨.assistant, a2⟩] q).map
          SchemaMessage.role
      = [.system, .user, .assistant, .user, .assistant, .user] := by
  refine ⟨rfl, rfl, rfl⟩
